import Mathlib

/-!
Verification of the BeatMarket server (`src/server.js`) against its
natural-language specification.

The file shallowly embeds the data model and the request handlers of the
server.  MongoDB collections become Lean lists of records; `findOne`
becomes `List.find?`; `updateOne` updates the first matching record;
`updateMany` maps over all records; `deleteOne` erases the first matching
record.  JavaScript numbers are modelled as exact rationals (`ℚ`) for
prices/earnings and naturals for counters; `parseInt`/`parseFloat` of the
multipart form strings are abstracted by passing the parsed values
alongside the raw strings.  HTTP responses are modelled by their status
code (200 for `{success:true}`), and external collaborators (Cloudinary)
by explicit parameters carrying their outcome (the fresh URLs/ids on
upload, a success flag on delete).

The repository contains two iterations of the server in one file; both
`POST /purchase` handlers are embedded (`purchase` for the later
iteration, `purchaseEarlier` for the earlier one) so they can be
compared.
-/

namespace BeatMarket

/-! ### Generic list helpers modelling MongoDB single-document operations -/

/-- Model of `updateOne`: apply `f` to the first element satisfying `p`,
leave the rest unchanged. -/
def updateFirst (p : α → Bool) (f : α → α) : List α → List α
  | [] => []
  | a :: as => if p a then f a :: as else a :: updateFirst p f as

/-- Model of `deleteOne`: remove the first element satisfying `p`. -/
def eraseFirst (p : α → Bool) : List α → List α
  | [] => []
  | a :: as => if p a then as else a :: eraseFirst p (as)

/-- Model of Mongo `$addToSet` on an array field: append if absent. -/
def addToSet [BEq α] (l : List α) (x : α) : List α :=
  if l.contains x then l else l ++ [x]

theorem find?_updateFirst_of_pred {p : α → Bool} {f : α → α} {l : List α} {x : α}
    (hfind : l.find? p = some x) (hfx : p (f x) = true) :
    (updateFirst p f l).find? p = some (f x) := by
  induction l with
  | nil => simp at hfind
  | cons a as ih =>
    by_cases ha : p a = true
    · simp [List.find?_cons, ha] at hfind
      subst hfind
      simp [updateFirst, ha, List.find?_cons, hfx]
    · have ha' : p a = false := by simp [Bool.not_eq_true] at ha; exact ha
      simp [List.find?_cons, ha'] at hfind
      simp [updateFirst, ha', List.find?_cons, ih hfind]

theorem mem_updateFirst {p : α → Bool} {f : α → α} {l : List α} {x : α}
    (hx : x ∈ updateFirst p f l) :
    x ∈ l ∨ ∃ y, l.find? p = some y ∧ x = f y := by
  induction l with
  | nil => simp [updateFirst] at hx
  | cons a as ih =>
    by_cases ha : p a = true
    · simp [updateFirst, ha] at hx
      rcases hx with h | h
      · exact Or.inr ⟨a, by simp [List.find?_cons, ha], h⟩
      · exact Or.inl (List.mem_cons_of_mem a h)
    · have ha' : p a = false := by simp [Bool.not_eq_true] at ha; exact ha
      simp [updateFirst, ha'] at hx
      rcases hx with h | h
      · exact Or.inl (by simp [h])
      · rcases ih h with h' | ⟨y, hy, hxy⟩
        · exact Or.inl (List.mem_cons_of_mem a h')
        · exact Or.inr ⟨y, by simp [List.find?_cons, ha', hy], hxy⟩

theorem mem_of_mem_eraseFirst {p : α → Bool} {l : List α} {x : α}
    (hx : x ∈ eraseFirst p l) : x ∈ l := by
  induction l with
  | nil => simp [eraseFirst] at hx
  | cons a as ih =>
    by_cases ha : p a = true
    · simp [eraseFirst, ha] at hx
      exact List.mem_cons_of_mem a hx
    · have ha' : p a = false := by simp [Bool.not_eq_true] at ha; exact ha
      simp [eraseFirst, ha'] at hx
      rcases hx with h | h
      · simp [h]
      · exact List.mem_cons_of_mem a (ih h)

/-! ### Data model -/

/-- Cloudinary deletion handles stored on a beat (`newBeat.cloudinary`). -/
structure CloudinaryIds where
  cover_public_id : String
  audio_public_id : String
deriving DecidableEq, Repr

/-- A document of the `beats` collection.  `_id` is modelled as its hex
string; `uploadDate` is omitted (opaque timestamp, never read by any
operation the claims mention).  `sales` is a natural counter and
`price`/`earned` exact rationals. -/
structure Beat where
  id : String
  title : String
  genre : String
  bpm : Int
  price : ℚ
  artist : String
  cover : String
  audio : String
  sales : Nat
  earned : ℚ
  ownerTelegramId : String
  cloudinary : Option CloudinaryIds
deriving DecidableEq, Repr

/-- A document of the `users` collection.  The `purchases` field may be
absent on a stored document (`none`): the upserts of this iteration's
POST /upload (`$setOnInsert {telegramId, username}`) and POST /favorite
(`$addToSet`/`$pull` on `favorites` only) create user documents without
it, and POST /purchase dereferences it without optional chaining.
`favorites` and `followers` stay plain lists: every read or update of
them (`?.length`, `$addToSet`, `$pull`, the `updateMany` filter) treats
an absent field and an empty array alike, so absence is observationally
an empty list for them. -/
structure User where
  telegramId : String
  username : String
  balance : ℚ
  purchases : Option (List String)
  favorites : List String
  followers : List String
deriving DecidableEq, Repr

/-- The database state: the `beats` and `users` collections. -/
structure DB where
  beats : List Beat
  users : List User
deriving DecidableEq, Repr

/-- Model of the driver's `ObjectId.isValid`: a 24-character hex string
(or a 12-byte string).  `validateObjectId` throws unless this holds. -/
def isValidObjectId (s : String) : Bool :=
  (s.length = 24 && s.toList.all (fun c => c.isDigit
      || ('a' ≤ c && c ≤ 'f') || ('A' ≤ c && c ≤ 'F')))
  || s.length = 12

/-! ### Operations (later iteration of `server.js`) -/

/-- POST /purchase (later iteration, `server.js` lines 510-550).

Missing fields give 400.  `validateObjectId` throws on a malformed
`beatId`; the route's catch turns that into a 500.

The lazy user creation
`findOne({telegramId}) || insertOne({...}).then(...)` is dead code at
runtime: `findOne` returns a Promise, which is always truthy, so the
`||` short-circuits and the `insertOne` branch is never evaluated.  When
no user document exists, `user` is therefore `null` after `Promise.all`,
and `user.purchases.some(...)` throws a TypeError that the catch maps to
a 500 — embedded here as the `none` branch of the user lookup.

`user.purchases.some(...)` also throws when the user document exists but
has no `purchases` field (every user this iteration's own upload or
favorite upserts create): the `none` branch of the `purchases` match,
again a 500 with no mutation.  The `$addToSet` update treats an absent
field as empty (`getD []`). -/
def purchase (db : DB) (userId beatId : String) : Nat × DB :=
  if userId = "" || beatId = "" then (400, db)
  else if !isValidObjectId beatId then (500, db)
  else
    match db.beats.find? (fun b => b.id = beatId) with
    | none => (404, db)
    | some beat =>
      match db.users.find? (fun u => u.telegramId = userId) with
      | none => (500, db)
      | some user =>
        match user.purchases with
        | none => (500, db)
        | some ps =>
          if ps.contains beatId then (200, db)
          else
            (200,
              { db with
                users := updateFirst (fun u => u.telegramId = userId)
                  (fun u => { u with
                    purchases := some (addToSet (u.purchases.getD []) beatId) }) db.users
                beats := updateFirst (fun b => b.id = beatId)
                  (fun b => { b with sales := b.sales + 1, earned := b.earned + beat.price })
                  db.beats })

/-- The user document `updateOne({telegramId}, update, {upsert:true})`
creates when no user matches in POST /favorite: only `telegramId` plus
the `$addToSet`-created `favorites` array (empty for `$pull`); absent
fields are modelled as zero/empty. -/
def upsertedFavUser (userId beatId action : String) : User :=
  { telegramId := userId, username := "", balance := 0, purchases := none
    favorites := if action = "add" then [beatId] else []
    followers := [] }

/-- POST /favorite (`server.js` lines 391-416).  Field/action checks give
400; `validateObjectId` throwing is caught and mapped to 500; otherwise
an upserted `updateOne` adds/removes the beat id in the user's
favorites. -/
def favorite (db : DB) (userId beatId action : String) : Nat × DB :=
  if userId = "" || beatId = "" || !(action = "add" || action = "remove") then (400, db)
  else if !isValidObjectId beatId then (500, db)
  else if db.users.any (fun u => u.telegramId = userId) then
    (200,
      { db with
        users := updateFirst (fun u => u.telegramId = userId)
          (fun u =>
            { u with favorites :=
                if action = "add" then addToSet u.favorites beatId
                else u.favorites.filter (fun x => x ≠ beatId) })
          db.users })
  else
    (200, { db with users := db.users ++ [upsertedFavUser userId beatId action] })

/-- DELETE /beat/:id (`server.js` lines 444-488).

`validateObjectId` throwing maps to 500; missing body userId gives 400;
a `findOne` on `{_id, ownerTelegramId}` returning nothing gives 403.
Otherwise the Cloudinary `destroy` calls run first (only when the beat
carries stored public ids): if one rejects, `Promise.all` rejects, the
catch returns 500 and neither `deleteOne` nor the favorites cleanup ever
runs — `releaseOk` is the collaborator's outcome.  On success the beat is
deleted and its id pulled from every user's favorites. -/
def deleteBeat (db : DB) (beatId userId : String) (releaseOk : Bool) : Nat × DB :=
  if !isValidObjectId beatId then (500, db)
  else if userId = "" then (400, db)
  else
    match db.beats.find? (fun b => b.id = beatId && b.ownerTelegramId = userId) with
    | none => (403, db)
    | some beat =>
      if beat.cloudinary.isSome && !releaseOk then (500, db)
      else
        (200,
          { db with
            beats := eraseFirst (fun b => b.id = beatId) db.beats
            users := db.users.map
              (fun u => { u with favorites := u.favorites.filter (fun x => x ≠ beatId) }) })

/-- The multipart form of POST /upload: file presence flags and the raw
text fields (the `!field` checks are on these strings). -/
structure UploadReq where
  hasCover : Bool
  hasAudio : Bool
  title : String
  genre : String
  bpm : String
  price : String
  artist : String
  ownerTelegramId : String
deriving DecidableEq, Repr

/-- POST /upload (later iteration, `server.js` lines 311-366).

`bpmVal`/`priceVal` abstract `parseInt(bpm)`/`parseFloat(price)` applied
to the raw form strings; `newId` is the store-assigned `_id` and the
remaining arguments are the URLs/public ids returned by the Cloudinary
collaborator.  Returns the status, the new state, and the beat object of
the response body.  The producer upsert only runs `$setOnInsert`, so an
existing user document is untouched. -/
def uploadBeat (db : DB) (r : UploadReq) (bpmVal : Int) (priceVal : ℚ)
    (newId coverUrl audioUrl coverPid audioPid : String) : Nat × DB × Option Beat :=
  if !r.hasCover || !r.hasAudio then (400, db, none)
  else if r.title = "" || r.genre = "" || r.bpm = "" || r.price = ""
      || r.ownerTelegramId = "" then (400, db, none)
  else
    let newBeat : Beat :=
      { id := newId, title := r.title, genre := r.genre, bpm := bpmVal
        price := priceVal
        artist := if r.artist = "" then "Unknown" else r.artist
        cover := coverUrl, audio := audioUrl
        sales := 0, earned := 0
        ownerTelegramId := r.ownerTelegramId
        cloudinary := some { cover_public_id := coverPid, audio_public_id := audioPid } }
    let users' :=
      if db.users.any (fun u => u.telegramId = r.ownerTelegramId) then db.users
      else db.users ++ [{ telegramId := r.ownerTelegramId, username := r.artist
                          balance := 0, purchases := none, favorites := [], followers := [] }]
    (200, { beats := db.beats ++ [newBeat], users := users' }, some newBeat)

/-- The JSON body GET /user/:id answers with: the user document with
`purchases`/`favorites` replaced by the full beat records they resolve
to. -/
structure UserView where
  telegramId : String
  balance : ℚ
  purchases : List Beat
  favorites : List Beat
deriving DecidableEq, Repr

/-- GET /user/:id (`server.js` lines 567-602).  A missing user document is
replaced by the zero-value default `{telegramId, balance:0, purchases:[],
favorites:[]}`; id lists are resolved via `$in` against the beats
collection (skipped when empty). -/
def getUser (db : DB) (userId : String) : Nat × Option UserView :=
  if userId = "" then (400, none)
  else
    let user := (db.users.find? (fun u => u.telegramId = userId)).getD
      { telegramId := userId, username := "", balance := 0
        purchases := some [], favorites := [], followers := [] }
    let purchases :=
      match user.purchases with
      | none => []
      | some ps => if ps.isEmpty then [] else db.beats.filter (fun b => ps.contains b.id)
    let favorites :=
      if user.favorites.isEmpty then []
      else db.beats.filter (fun b => user.favorites.contains b.id)
    (200, some { telegramId := user.telegramId, balance := user.balance
                 purchases := purchases, favorites := favorites })

/-! ### POST /purchase, earlier iteration (`server.js` lines 766-797) -/

/-- Model of `user.purchases.includes(new ObjectId(beatId))` in the
earlier iteration: `Array.prototype.includes` compares with
SameValueZero, i.e. object reference equality for ObjectId instances.
The freshly constructed `new ObjectId(beatId)` is never reference-equal
to any ObjectId deserialized from the store, so the test is always
false. -/
def includesFreshObjectId (_purchases : List String) (_beatId : String) : Bool :=
  false

/-- The user document the earlier iteration's lazy create inserts:
`{telegramId, balance: 0, purchases: []}`. -/
def lazyCreatedUser (userId : String) : User :=
  { telegramId := userId, username := "", balance := 0
    purchases := some [], favorites := [], followers := [] }

/-- POST /purchase, earlier iteration.  No field validation; a malformed
`beatId` makes `new ObjectId(beatId)` throw (caught, 500).  Lazy user
creation works here (`findOne` is awaited before the null check).  The
already-purchased test uses `includes` on a fresh ObjectId and so never
fires; the mutation uses `$push` (duplicates possible) and `$inc`.  As
in the later iteration, `user.purchases.includes(...)` throws (500, no
mutation) when the existing user document has no `purchases` field. -/
def purchaseEarlier (db : DB) (userId beatId : String) : Nat × DB :=
  if !isValidObjectId beatId then (500, db)
  else
    match db.beats.find? (fun b => b.id = beatId) with
    | none => (404, db)
    | some beat =>
      let db1 : DB :=
        match db.users.find? (fun u => u.telegramId = userId) with
        | some _ => db
        | none => { db with users := db.users ++ [lazyCreatedUser userId] }
      let user : User :=
        (db1.users.find? (fun u => u.telegramId = userId)).getD (lazyCreatedUser userId)
      match user.purchases with
      | none => (500, db1)
      | some ps =>
        if includesFreshObjectId ps beatId then (200, db1)
        else
          (200,
            { db1 with
              users := updateFirst (fun u => u.telegramId = userId)
                (fun u => { u with
                  purchases := some ((u.purchases.getD []) ++ [beatId]) }) db1.users
              beats := updateFirst (fun b => b.id = beatId)
                (fun b => { b with sales := b.sales + 1, earned := b.earned + beat.price })
                db1.beats })

/-! ### Operation sequences and the earnings invariant -/

/-- The mutating operations the earnings invariant ranges over: uploads
and purchases (later iteration). -/
inductive Op where
  | upload (r : UploadReq) (bpmVal : Int) (priceVal : ℚ)
      (newId coverUrl audioUrl coverPid audioPid : String)
  | purchase (userId beatId : String)

/-- State transition of one operation (response discarded). -/
def applyOp (db : DB) : Op → DB
  | Op.upload r bv pv nid cu au cp ap => (uploadBeat db r bv pv nid cu au cp ap).2.1
  | Op.purchase uid bid => (purchase db uid bid).2

/-- Every beat's `earned` field equals its `price` times its `sales`
counter. -/
def earnedInv (db : DB) : Prop :=
  ∀ b ∈ db.beats, b.earned = b.price * b.sales

/-! ### Further list lemmas -/

theorem updateFirst_congr_find {p : α → Bool} {f g : α → α} {l : List α} {x : α}
    (h : l.find? p = some x) (hfg : f x = g x) :
    updateFirst p f l = updateFirst p g l := by
  induction l with
  | nil => rfl
  | cons a as ih =>
    by_cases ha : p a = true
    · simp [List.find?_cons, ha] at h
      subst h
      simp [updateFirst, ha, hfg]
    · have ha' : p a = false := by simp [Bool.not_eq_true] at ha; exact ha
      simp [List.find?_cons, ha'] at h
      simp [updateFirst, ha', ih h]

theorem eraseFirst_key_gone {f : α → β} [DecidableEq β] {l : List α} {k : β}
    (hnodup : (l.map f).Nodup) :
    ∀ x ∈ eraseFirst (fun a => f a = k) l, f x ≠ k := by
  induction l with
  | nil => intro x hx; simp [eraseFirst] at hx
  | cons a as ih =>
    intro x hx
    rw [List.map_cons, List.nodup_cons] at hnodup
    obtain ⟨hnotin, hnd⟩ := hnodup
    by_cases ha : f a = k
    · have : eraseFirst (fun a => f a = k) (a :: as) = as := by
        simp [eraseFirst, ha]
      rw [this] at hx
      intro hxk
      exact hnotin (by rw [← ha, ← hxk] at *; exact List.mem_map_of_mem f hx)
    · have : eraseFirst (fun a => f a = k) (a :: as) = a :: eraseFirst (fun a => f a = k) as := by
        simp [eraseFirst, ha]
      rw [this] at hx
      rcases List.mem_cons.mp hx with rfl | hx'
      · exact ha
      · exact ih hnd x hx'

theorem addToSet_of_not_mem [BEq α] [LawfulBEq α] {l : List α} {x : α} (h : x ∉ l) :
    addToSet l x = l ++ [x] := by
  simp [addToSet, h]

theorem ne_empty_of_isValidObjectId {s : String} (h : isValidObjectId s = true) : s ≠ "" := by
  intro he
  subst he
  simp [isValidObjectId] at h

/-! ### Concrete fixtures used by witnesses and counterexamples -/

/-- A well-formed `_id` hex string. -/
def beatId0 : String := "aaaaaaaaaaaaaaaaaaaaaaaa"

/-- A beat freshly uploaded by `"owner1"` (sales 0, earned 0,
price 10). -/
def beat0 : Beat :=
  { id := beatId0, title := "Night Drive", genre := "trap", bpm := 140
    price := 10, artist := "mk", cover := "cu", audio := "au"
    sales := 0, earned := 0, ownerTelegramId := "owner1"
    cloudinary := some { cover_public_id := "cp", audio_public_id := "ap" } }

/-- A user whose document carries an (empty) `purchases` array — as the
earlier iteration's lazy create stores — and who has favorited `beat0`. -/
def user0 : User :=
  { telegramId := "u1", username := "", balance := 0
    purchases := some [], favorites := [beatId0], followers := [] }

def db0 : DB := { beats := [beat0], users := [user0] }

/-! ### Claim theorems -/

/-- C3: the claim says Purchase with an unknown userId lazily creates a
User record and succeeds, recording the purchase.  In the code the lazy
creation branch `findOne(...) || insertOne(...)` is dead: `findOne`
returns a Promise, which is truthy, so `||` short-circuits and
`insertOne` is never evaluated; `user` is then `null` and
`user.purchases.some(...)` throws, giving a 500.  Evaluated at a state
with one beat and no users, the purchase fails with 500 and the state —
users included — is unchanged: no user is created, nothing is recorded,
no counter moves. -/
theorem purchase_missing_user_fails :
    purchase { beats := [beat0], users := [] } "42" beatId0
      = (500, { beats := [beat0], users := [] }) := by
  decide

/-- C8: GET /user/:id for an id with no User record answers 200 with the
zero-value default profile: balance 0, empty purchases, empty
favorites. -/
theorem getUser_missing_default (db : DB) (userId : String)
    (huid : userId ≠ "")
    (h : db.users.find? (fun u => u.telegramId = userId) = none) :
    getUser db userId =
      (200, some { telegramId := userId, balance := 0, purchases := [], favorites := [] }) := by
  simp [getUser, huid, h]

theorem getUser_missing_default_witness :
    "ghost" ≠ ""
    ∧ getUser db0 "ghost"
        = (200, some { telegramId := "ghost", balance := 0, purchases := [], favorites := [] }) :=
  ⟨by decide, getUser_missing_default db0 "ghost" (by decide) (by decide)⟩

/-- C10: an upload with both media files and all required fields but an
absent/empty artist is accepted (artist is not among the required-field
checks) and the created beat's artist defaults to "Unknown". -/
theorem upload_artist_defaults_unknown (db : DB) (r : UploadReq) (bpmVal : Int) (priceVal : ℚ)
    (nid cu au cp ap : String)
    (hc : r.hasCover = true) (ha : r.hasAudio = true)
    (ht : r.title ≠ "") (hg : r.genre ≠ "") (hbpm : r.bpm ≠ "") (hpr : r.price ≠ "")
    (hown : r.ownerTelegramId ≠ "") (hart : r.artist = "") :
    (uploadBeat db r bpmVal priceVal nid cu au cp ap).1 = 200
    ∧ ((uploadBeat db r bpmVal priceVal nid cu au cp ap).2.2).map Beat.artist
        = some "Unknown" := by
  simp [uploadBeat, hc, ha, ht, hg, hbpm, hpr, hown, hart]

/-- A concrete upload form with no artist given. -/
def reqNoArtist : UploadReq :=
  { hasCover := true, hasAudio := true, title := "t", genre := "g"
    bpm := "140", price := "9.99", artist := "", ownerTelegramId := "owner1" }

theorem upload_artist_defaults_unknown_witness :
    (uploadBeat db0 reqNoArtist 140 (10 : ℚ) "bbbbbbbbbbbbbbbbbbbbbbbb" "cu" "au" "cp" "ap").1
        = 200
    ∧ ((uploadBeat db0 reqNoArtist 140 (10 : ℚ) "bbbbbbbbbbbbbbbbbbbbbbbb" "cu" "au" "cp" "ap").2.2).map
        Beat.artist = some "Unknown" :=
  upload_artist_defaults_unknown db0 reqNoArtist 140 (10 : ℚ)
    "bbbbbbbbbbbbbbbbbbbbbbbb" "cu" "au" "cp" "ap"
    (by decide) (by decide) (by decide) (by decide) (by decide) (by decide) (by decide) (by decide)

/-- C5 counterexample: the claim maps a malformed beatId to HTTP 400, but
`validateObjectId` throws a plain Error that each route's catch-all turns
into a 500.  At the malformed id "abc", Favorite, Purchase and DeleteBeat
all answer 500 — not 400 — and leave the state unchanged. -/
theorem malformed_id_maps_to_500_cex :
    (favorite db0 "u1" "abc" "add").1 ≠ 400
    ∧ favorite db0 "u1" "abc" "add" = (500, db0)
    ∧ purchase db0 "u1" "abc" = (500, db0)
    ∧ deleteBeat db0 "abc" "owner1" true = (500, db0) := by
  decide

/-- C5 (amended): a present but malformed beatId makes Favorite, Purchase
and DeleteBeat fail with HTTP 500 (the validateObjectId Error is caught by
the route's catch-all), not 400, and no stored state is mutated. -/
theorem malformed_id_rejected_500 (db : DB) (userId beatId : String) (releaseOk : Bool)
    (hinvalid : isValidObjectId beatId = false)
    (huid : userId ≠ "") (hbid : beatId ≠ "") :
    favorite db userId beatId "add" = (500, db)
    ∧ favorite db userId beatId "remove" = (500, db)
    ∧ purchase db userId beatId = (500, db)
    ∧ deleteBeat db beatId userId releaseOk = (500, db) := by
  refine ⟨?_, ?_, ?_, ?_⟩ <;> simp [favorite, purchase, deleteBeat, hinvalid, huid, hbid]

theorem malformed_id_rejected_500_witness :
    isValidObjectId "abc" = false
    ∧ purchase db0 "u1" "abc" = (500, db0) :=
  ⟨by decide, (malformed_id_rejected_500 db0 "u1" "abc" true (by decide) (by decide)
      (by decide)).2.2.1⟩

/-- C4 counterexample: the claim says a failing media release does not
block removal of the catalog record.  In the code the Cloudinary
`destroy` calls are awaited inside the route's try before `deleteOne`; a
rejection jumps to the catch, answers 500, and the beat record survives:
at `db0`, deleting `beat0` as its owner with the release collaborator
failing leaves the state unchanged and `beat0` still in the catalog. -/
theorem deleteBeat_release_failure_cex :
    (deleteBeat db0 beatId0 "owner1" false).1 = 500
    ∧ (deleteBeat db0 beatId0 "owner1" false).2 = db0
    ∧ beat0 ∈ (deleteBeat db0 beatId0 "owner1" false).2.beats := by
  decide

/-- C4 (amended): a failure of the media-release collaborator does block
removal: when the owner deletes an existing beat that carries stored
media handles and the release fails, the operation answers 500 and
neither the beat record nor any user's favorites change. -/
theorem deleteBeat_release_failure_blocks (db : DB) (beatId userId : String) (b : Beat)
    (hvalid : isValidObjectId beatId = true) (huid : userId ≠ "")
    (hfind : db.beats.find? (fun x => x.id = beatId && x.ownerTelegramId = userId) = some b)
    (hcloud : b.cloudinary.isSome = true) :
    deleteBeat db beatId userId false = (500, db) := by
  simp [deleteBeat, hvalid, huid, hfind, hcloud]

theorem deleteBeat_release_failure_blocks_witness :
    isValidObjectId beatId0 = true
    ∧ deleteBeat db0 beatId0 "owner1" false = (500, db0) :=
  ⟨by decide, deleteBeat_release_failure_blocks db0 beatId0 "owner1" beat0
      (by decide) (by decide) (by decide) (by decide)⟩

/-- C6: DeleteBeat when no beat has the given id with the requester as
owner (absent beat, or owner mismatch; also malformed id or missing
requester) fails — its status is never 200 — and returns the state
exactly unchanged: beats and every user's favorites, purchases and
followers are as before. -/
theorem deleteBeat_nonowner_frame (db : DB) (beatId requesterId : String) (releaseOk : Bool)
    (h : db.beats.find? (fun b => b.id = beatId && b.ownerTelegramId = requesterId) = none) :
    (deleteBeat db beatId requesterId releaseOk).1 ≠ 200
    ∧ (deleteBeat db beatId requesterId releaseOk).2 = db := by
  have hcase : deleteBeat db beatId requesterId releaseOk = (500, db)
      ∨ deleteBeat db beatId requesterId releaseOk = (400, db)
      ∨ deleteBeat db beatId requesterId releaseOk = (403, db) := by
    unfold deleteBeat
    split
    · exact Or.inl rfl
    split
    · exact Or.inr (Or.inl rfl)
    rw [h]
    exact Or.inr (Or.inr rfl)
  rcases hcase with hc | hc | hc <;> rw [hc] <;> exact ⟨by norm_num, rfl⟩

theorem deleteBeat_nonowner_frame_witness :
    db0.beats.find? (fun b => b.id = beatId0 && b.ownerTelegramId = "intruder") = none
    ∧ (deleteBeat db0 beatId0 "intruder" true).1 ≠ 200
    ∧ (deleteBeat db0 beatId0 "intruder" true).2 = db0 :=
  ⟨by decide,
    (deleteBeat_nonowner_frame db0 beatId0 "intruder" true (by decide)).1,
    (deleteBeat_nonowner_frame db0 beatId0 "intruder" true (by decide)).2⟩

/-! ### C1: the earnings invariant is preserved -/

theorem earnedInv_uploadBeat {db : DB} (h : earnedInv db) (r : UploadReq) (bv : Int) (pv : ℚ)
    (nid cu au cp ap : String) :
    earnedInv (uploadBeat db r bv pv nid cu au cp ap).2.1 := by
  unfold uploadBeat
  split
  · exact h
  split
  · exact h
  intro b hb
  have hb' : b ∈ db.beats ++
      [{ id := nid, title := r.title, genre := r.genre, bpm := bv, price := pv
         artist := if r.artist = "" then "Unknown" else r.artist
         cover := cu, audio := au, sales := 0, earned := 0
         ownerTelegramId := r.ownerTelegramId
         cloudinary := some { cover_public_id := cp, audio_public_id := ap } }] := hb
  rcases List.mem_append.mp hb' with hmem | hmem
  · exact h b hmem
  · rcases List.mem_singleton.mp hmem with rfl
    simp

theorem earnedInv_purchase {db : DB} (h : earnedInv db) (userId beatId : String) :
    earnedInv (purchase db userId beatId).2 := by
  unfold purchase
  split
  · exact h
  split
  · exact h
  split
  · exact h
  next beat hbfind =>
    split
    · exact h
    next user hufind =>
      split
      · exact h
      next ps hps =>
        split
        · exact h
        intro b hb
        have hb' : b ∈ updateFirst (fun x => x.id = beatId)
            (fun x => { x with sales := x.sales + 1, earned := x.earned + beat.price })
            db.beats := hb
        rcases mem_updateFirst hb' with hmem | ⟨y, hy, rfl⟩
        · exact h b hmem
        · rw [hbfind] at hy
          rcases Option.some.inj hy with rfl
          have hmem := List.mem_of_find?_eq_some hbfind
          have hBeat := h beat hmem
          show beat.earned + beat.price = beat.price * ((beat.sales + 1 : ℕ) : ℚ)
          rw [hBeat]
          push_cast
          ring

/-- C1: for every beat, after upload (which initializes sales=0 and
earned=0) and any sequence of Purchase operations, `earned` equals
`price * sales`: the invariant `earnedInv` holds of any state reachable
by upload/purchase operations from a state satisfying it (in particular
from the empty database), because the only mutation of these fields
increments `sales` by 1 and `earned` by the beat's price together. -/
theorem earned_eq_price_mul_sales (ops : List Op) (db : DB) (h : earnedInv db) :
    earnedInv (ops.foldl applyOp db) := by
  induction ops generalizing db with
  | nil => exact h
  | cons op rest ih =>
    rw [List.foldl_cons]
    cases op with
    | upload r bv pv nid cu au cp ap =>
      exact ih _ (earnedInv_uploadBeat h r bv pv nid cu au cp ap)
    | purchase uid bid => exact ih _ (earnedInv_purchase h uid bid)

theorem earned_eq_price_mul_sales_witness :
    earnedInv { beats := [], users := [user0] }
    ∧ earnedInv
        ([Op.upload reqNoArtist 140 (10 : ℚ) beatId0 "cu" "au" "cp" "ap",
          Op.purchase "u1" beatId0,
          Op.purchase "u1" beatId0].foldl applyOp { beats := [], users := [user0] }) :=
  ⟨by simp [earnedInv],
    earned_eq_price_mul_sales _ { beats := [], users := [user0] } (by simp [earnedInv])⟩

/-! ### C7: owner delete removes the beat and cleans all favorites -/

/-- C7: when the beat exists, the requester is its owner, and the media
release succeeds, DeleteBeat removes the beat record from the catalog
(id uniqueness assumed, as for Mongo `_id`) and the beat's id is absent
from every user's favorites afterwards, including users whose favorites
previously contained it. -/
theorem deleteBeat_owner_removes (db : DB) (beatId requesterId : String) (b : Beat)
    (hvalid : isValidObjectId beatId = true) (hrid : requesterId ≠ "")
    (hnodup : (db.beats.map Beat.id).Nodup)
    (hfind : db.beats.find? (fun x => x.id = beatId && x.ownerTelegramId = requesterId)
        = some b) :
    (deleteBeat db beatId requesterId true).1 = 200
    ∧ (∀ x ∈ (deleteBeat db beatId requesterId true).2.beats, x.id ≠ beatId)
    ∧ (∀ u ∈ (deleteBeat db beatId requesterId true).2.users, beatId ∉ u.favorites) := by
  have hred : deleteBeat db beatId requesterId true
      = (200,
          { beats := eraseFirst (fun x => x.id = beatId) db.beats
            users := db.users.map
              (fun u => { u with favorites := u.favorites.filter (fun x => x ≠ beatId) }) }) := by
    simp [deleteBeat, hvalid, hrid, hfind]
  rw [hred]
  refine ⟨rfl, ?_, ?_⟩
  · intro x hx
    exact eraseFirst_key_gone hnodup x hx
  · intro u hu
    rcases List.mem_map.mp hu with ⟨v, hv, rfl⟩
    show beatId ∉ v.favorites.filter (fun x => x ≠ beatId)
    simp [List.mem_filter]

theorem deleteBeat_owner_removes_witness :
    (db0.beats.map Beat.id).Nodup
    ∧ (deleteBeat db0 beatId0 "owner1" true).1 = 200
    ∧ (∀ x ∈ (deleteBeat db0 beatId0 "owner1" true).2.beats, x.id ≠ beatId0)
    ∧ (∀ u ∈ (deleteBeat db0 beatId0 "owner1" true).2.users, beatId0 ∉ u.favorites) :=
  ⟨by decide,
    (deleteBeat_owner_removes db0 beatId0 "owner1" beat0
      (by decide) (by decide) (by decide) (by decide)).1,
    (deleteBeat_owner_removes db0 beatId0 "owner1" beat0
      (by decide) (by decide) (by decide) (by decide)).2.1,
    (deleteBeat_owner_removes db0 beatId0 "owner1" beat0
      (by decide) (by decide) (by decide) (by decide)).2.2⟩

/-! ### C2: sequential purchases and the purchases-field requirement -/

/-- A user created by this iteration's POST /favorite upsert: the stored
document has a favorites array but no `purchases` field. -/
def favOnlyUser : User := upsertedFavUser "u2" beatId0 "add"

def dbFavOnly : DB := { beats := [beat0], users := [favOnlyUser] }

/-- C2 counterexample: the claim promises that for every user the first
Purchase records the beat id and increments sales and earned exactly
once.  For an existing user document without a `purchases` field — which
is what this iteration's own upload and favorite upserts create —
`user.purchases.some(...)` throws a TypeError, the route answers 500,
and the first call increments nothing: at `dbFavOnly` the purchase
leaves the state unchanged and sales stays 0. -/
theorem purchase_fieldless_user_cex :
    purchase dbFavOnly "u2" beatId0 = (500, dbFavOnly)
    ∧ (purchase dbFavOnly "u2" beatId0).2.beats.map Beat.sales = [0] := by
  decide

/-- C2 (amended): for an existing user whose document carries a
purchases array not yet containing the existing beat's id, the first
Purchase answers success, records the id exactly once in the array, and
increments the beat's sales by 1 and earned by the beat's price; a
second identical Purchase answers success and changes nothing.  For an
existing user whose document lacks the purchases field, every call
fails with 500 and mutates nothing (see the counterexample). -/
theorem purchase_sequential_idempotent (db : DB) (userId beatId : String)
    (u : User) (ps : List String) (b : Beat)
    (hvalid : isValidObjectId beatId = true)
    (huid : userId ≠ "")
    (hu : db.users.find? (fun x => x.telegramId = userId) = some u)
    (hb : db.beats.find? (fun x => x.id = beatId) = some b)
    (hps : u.purchases = some ps)
    (hnot : beatId ∉ ps) :
    (purchase db userId beatId).1 = 200
    ∧ ((purchase db userId beatId).2.users.find? (fun x => x.telegramId = userId)).map
        User.purchases = some (some (ps ++ [beatId]))
    ∧ (ps ++ [beatId]).count beatId = 1
    ∧ ((purchase db userId beatId).2.beats.find? (fun x => x.id = beatId)).map
        Beat.sales = some (b.sales + 1)
    ∧ ((purchase db userId beatId).2.beats.find? (fun x => x.id = beatId)).map
        Beat.earned = some (b.earned + b.price)
    ∧ purchase (purchase db userId beatId).2 userId beatId
        = (200, (purchase db userId beatId).2) := by
  have hbid : beatId ≠ "" := ne_empty_of_isValidObjectId hvalid
  have hcontains : ps.contains beatId = false := by
    simpa using hnot
  have hgetD : u.purchases.getD [] = ps := by rw [hps]; rfl
  have hstep : purchase db userId beatId
      = (200,
          { db with
            users := updateFirst (fun x => x.telegramId = userId)
              (fun x => { x with
                purchases := some (addToSet (x.purchases.getD []) beatId) }) db.users
            beats := updateFirst (fun x => x.id = beatId)
              (fun x => { x with sales := x.sales + 1, earned := x.earned + b.price })
              db.beats }) := by
    simp [purchase, huid, hbid, hvalid, hb, hu, hps, hcontains]
    exact fun hmem => absurd hmem hnot
  have hu' : u.telegramId = userId := by simpa using List.find?_some hu
  have hb' : b.id = beatId := by simpa using List.find?_some hb
  have hufind := find?_updateFirst_of_pred (f := fun x =>
      { x with purchases := some (addToSet (x.purchases.getD []) beatId) }) hu (by simp [hu'])
  have hbfind := find?_updateFirst_of_pred (f := fun x =>
      { x with sales := x.sales + 1, earned := x.earned + b.price }) hb (by simp [hb'])
  have hcontains1 : (addToSet (u.purchases.getD []) beatId).contains beatId = true := by
    rw [hgetD, addToSet_of_not_mem hnot]
    simp
  refine ⟨by rw [hstep], ?_, ?_, ?_, ?_, ?_⟩
  · rw [hstep]
    show ((updateFirst (fun x => x.telegramId = userId)
        (fun x => { x with
          purchases := some (addToSet (x.purchases.getD []) beatId) }) db.users).find?
        (fun x => x.telegramId = userId)).map User.purchases = some (some (ps ++ [beatId]))
    rw [hufind]
    simp [hgetD, addToSet_of_not_mem hnot]
  · rw [List.count_append, List.count_eq_zero.mpr hnot]
    simp
  · rw [hstep]
    show ((updateFirst (fun x => x.id = beatId)
        (fun x => { x with sales := x.sales + 1, earned := x.earned + b.price }) db.beats).find?
        (fun x => x.id = beatId)).map Beat.sales = some (b.sales + 1)
    rw [hbfind]
    rfl
  · rw [hstep]
    show ((updateFirst (fun x => x.id = beatId)
        (fun x => { x with sales := x.sales + 1, earned := x.earned + b.price }) db.beats).find?
        (fun x => x.id = beatId)).map Beat.earned = some (b.earned + b.price)
    rw [hbfind]
    rfl
  · rw [hstep]
    simp [purchase, huid, hbid, hvalid, hufind, hbfind, hcontains1]
    intro hmem
    exact absurd (by rw [hgetD, addToSet_of_not_mem hnot]; simp) hmem

theorem purchase_sequential_idempotent_witness :
    (purchase db0 "u1" beatId0).1 = 200
    ∧ purchase (purchase db0 "u1" beatId0).2 "u1" beatId0
        = (200, (purchase db0 "u1" beatId0).2) :=
  ⟨(purchase_sequential_idempotent db0 "u1" beatId0 user0 [] beat0
      (by decide) (by decide) (by decide) (by decide) (by decide) (by decide)).1,
    (purchase_sequential_idempotent db0 "u1" beatId0 user0 [] beat0
      (by decide) (by decide) (by decide) (by decide) (by decide) (by decide)).2.2.2.2.2⟩

/-! ### C9: comparing the two POST /purchase iterations -/

/-- The state after one purchase of `beat0` by `"u1"`. -/
def beatSold : Beat := { beat0 with sales := 1, earned := 10 }

/-- A user who already purchased `beat0`. -/
def buyer : User :=
  { telegramId := "u1", username := "", balance := 0
    purchases := some [beatId0], favorites := [], followers := [] }

def dbSold : DB := { beats := [beatSold], users := [buyer] }

/-- C9 counterexample: on a state where the user already purchased the
beat, the later iteration's Purchase is a no-op (sales stays 1, purchases
stays `[beatId0]`), while the earlier iteration — whose already-purchased
check `includes(new ObjectId(beatId))` compares object references and is
always false — increments sales to 2 and `$push`es a duplicate id, so the
two iterations are not behaviorally equivalent. -/
theorem purchase_iterations_differ_cex :
    (purchase dbSold "u1" beatId0).2.beats.map Beat.sales = [1]
    ∧ (purchaseEarlier dbSold "u1" beatId0).2.beats.map Beat.sales = [2]
    ∧ (purchase dbSold "u1" beatId0).2.users.map User.purchases = [some [beatId0]]
    ∧ (purchaseEarlier dbSold "u1" beatId0).2.users.map User.purchases
        = [some [beatId0, beatId0]] := by
  decide

/-- C9 (amended): the two Purchase iterations agree exactly on requests
by existing users who have not purchased the beat — when the user record
exists, the beat exists, and no stored purchases array of that user
contains the beat's id, both iterations produce the same response and
the same final state (a first purchase when the purchases array is
present; a 500 with no mutation when the field is absent, since both
dereference it).  They differ otherwise: on an already-purchased beat
the earlier iteration increments sales/earned again and appends a
duplicate id (its includes-on-a-fresh-ObjectId check never fires), and
on a missing user record the earlier iteration lazily creates it and
succeeds while the later one fails with 500. -/
theorem purchase_iterations_agree_on_first (db : DB) (userId beatId : String)
    (u : User) (b : Beat)
    (hvalid : isValidObjectId beatId = true) (huid : userId ≠ "")
    (hu : db.users.find? (fun x => x.telegramId = userId) = some u)
    (hb : db.beats.find? (fun x => x.id = beatId) = some b)
    (hnot : ∀ ps, u.purchases = some ps → beatId ∉ ps) :
    purchase db userId beatId = purchaseEarlier db userId beatId := by
  have hbid : beatId ≠ "" := ne_empty_of_isValidObjectId hvalid
  cases hps : u.purchases with
  | none =>
    have hl : purchase db userId beatId = (500, db) := by
      simp [purchase, huid, hbid, hvalid, hb, hu, hps]
    have hr : purchaseEarlier db userId beatId = (500, db) := by
      simp [purchaseEarlier, hvalid, hb, hu, hps]
    rw [hl, hr]
  | some ps =>
    have hn : beatId ∉ ps := hnot ps hps
    have hcontains : ps.contains beatId = false := by
      simpa using hn
    have hgetD : u.purchases.getD [] = ps := by rw [hps]; rfl
    have hlhs : purchase db userId beatId
        = (200,
            { db with
              users := updateFirst (fun x => x.telegramId = userId)
                (fun x => { x with
                  purchases := some (addToSet (x.purchases.getD []) beatId) }) db.users
              beats := updateFirst (fun x => x.id = beatId)
                (fun x => { x with sales := x.sales + 1, earned := x.earned + b.price })
                db.beats }) := by
      simp [purchase, huid, hbid, hvalid, hb, hu, hps, hcontains]
      exact fun hmem => absurd hmem hn
    have hrhs : purchaseEarlier db userId beatId
        = (200,
            { db with
              users := updateFirst (fun x => x.telegramId = userId)
                (fun x => { x with
                  purchases := some ((x.purchases.getD []) ++ [beatId]) }) db.users
              beats := updateFirst (fun x => x.id = beatId)
                (fun x => { x with sales := x.sales + 1, earned := x.earned + b.price })
                db.beats }) := by
      simp [purchaseEarlier, includesFreshObjectId, hvalid, hb, hu, hps]
    rw [hlhs, hrhs]
    rw [updateFirst_congr_find (g := fun x =>
        { x with purchases := some ((x.purchases.getD []) ++ [beatId]) }) hu
      (by simp [hgetD, addToSet_of_not_mem hn])]

theorem purchase_iterations_agree_on_first_witness :
    purchase db0 "u1" beatId0 = purchaseEarlier db0 "u1" beatId0 :=
  purchase_iterations_agree_on_first db0 "u1" beatId0 user0 beat0
    (by decide) (by decide) (by decide) (by decide)
    (by
      intro ps hps
      have hps' : ps = [] := by simpa [user0] using hps.symm
      subst hps'
      simp)

end BeatMarket
